import Mathlib

/-!
Verification of the extraction engine of `script.py` (KHDA training-provider
scraper).  The engine's pure, decidable fragments are shallowly embedded here:

* string helpers mirroring the Python primitives used by the source
  (`strip`, `lower`, `split`, substring containment, the regex checks);
* `is_nav_element` (script.py lines 93-130), the shared noise predicate;
* `cleanSubs` (lines 1100-1164), the per-category cleanup/dedup pass;
* `parseTextStructure` (lines 1184-1220), the structural text-fallback parser;
* `discoverMainPrograms` (lines 950-986), category-header discovery;
* `formatPrograms` / `buildProgramsField` (lines 1263-1313), serialization of
  the `programs` field;
* `saveCleanPrograms` (lines 1350-1375), the save-time cleanup;
* `clickAndExpandAccordion` (lines 381-553) as an interpreter over an abstract
  document view whose operations may fail (`Except`), capturing the
  exception-handling structure of the Python code;
* `harvest` (lines 84-379, `click_and_extract_subprograms`) as a function of an
  abstract document state, with the element click and the force-show script
  threaded as state transitions.
-/

/-! Section: String helpers mirroring Python primitives -/

/-- Python `str.strip()` on a character list: drop whitespace from both ends. -/
def pyStripList (cs : List Char) : List Char :=
  ((cs.dropWhile Char.isWhitespace).reverse.dropWhile Char.isWhitespace).reverse

/-- Python `str.strip()`. -/
def pyStrip (s : String) : String := ⟨pyStripList s.data⟩

/-- Python `str.lower()` (ASCII, which covers every string the source uses). -/
def pyLower (s : String) : String := ⟨s.data.map Char.toLower⟩

/-- Python `len` on a string (code points). -/
def pyLen (s : String) : Nat := s.data.length

/-- Whether `n` occurs as a prefix of `h` (character lists). -/
def startsWithSeq : List Char → List Char → Bool
  | [], _ => true
  | _ :: _, [] => false
  | a :: as, b :: bs => a == b && startsWithSeq as bs

/-- Python `n in h`: whether `n` occurs as a contiguous subsequence of `h`. -/
def containsSeq (n : List Char) : List Char → Bool
  | [] => startsWithSeq n []
  | c :: cs => startsWithSeq n (c :: cs) || containsSeq n cs

/-- Python `needle in hay` on strings. -/
def pyIn (needle hay : String) : Bool := containsSeq needle.data hay.data

/-- Python `s.startswith(p)`. -/
def pyStartsWith (s p : String) : Bool := startsWithSeq p.data s.data

/-- Python `s.endswith(p)`. -/
def pyEndsWith (s p : String) : Bool := startsWithSeq p.data.reverse s.data.reverse

/-- Split a character list at every character satisfying `p`, keeping empty
segments (Python `str.split(sep)` semantics for a one-character separator). -/
def splitListOnP (p : Char → Bool) : List Char → List (List Char)
  | [] => [[]]
  | x :: xs =>
    if p x then [] :: splitListOnP p xs
    else
      match splitListOnP p xs with
      | h :: t => (x :: h) :: t
      | [] => [[x]]

/-- Python `s.split(c)` for a one-character separator. -/
def pySplitOn (c : Char) (s : String) : List String :=
  (splitListOnP (fun x => x == c) s.data).map (fun l => (⟨l⟩ : String))

/-- Python `s.split()`: split on whitespace runs, dropping empty segments. -/
def pySplitWs (s : String) : List String :=
  ((splitListOnP Char.isWhitespace s.data).map (fun l => (⟨l⟩ : String))).filter
    (fun x => x ≠ "")

/-- Python `s.split('\n')[0]`. -/
def firstLine (s : String) : String := (pySplitOn '\n' s).headD ""

/-- Python `s.rstrip(':')`: drop every trailing colon. -/
def rstripColons (s : String) : String :=
  ⟨(s.data.reverse.dropWhile (fun c => c == ':')).reverse⟩

/-- ASCII letter test, used for the `[a-zA-Z]` regex class. -/
def isAsciiLetter (c : Char) : Bool :=
  ('a' ≤ c && c ≤ 'z') || ('A' ≤ c && c ≤ 'Z')

/-- Regex `[a-zA-Z]{2,}` searched anywhere: two consecutive ASCII letters. -/
def hasTwoLetters : List Char → Bool
  | a :: b :: rest => (isAsciiLetter a && isAsciiLetter b) || hasTwoLetters (b :: rest)
  | _ => false

/-- Characters of the regex class `[\[\(\<\>\)\]]`. -/
def isBracketChar (c : Char) : Bool :=
  c == '[' || c == '(' || c == '<' || c == '>' || c == ')' || c == ']'

/-- Regex `^\s*[\[\(\<\>\)\]]+\s*$` (script.py line 120). -/
def fullBracketMatch (cs : List Char) : Bool :=
  let r := cs.dropWhile Char.isWhitespace
  (r.takeWhile isBracketChar) ≠ [] && (r.dropWhile isBracketChar).all Char.isWhitespace

/-- Regex `^\s*\d+\s*$` (script.py line 122). -/
def fullNumberMatch (cs : List Char) : Bool :=
  let r := cs.dropWhile Char.isWhitespace
  (r.takeWhile Char.isDigit) ≠ [] && (r.dropWhile Char.isDigit).all Char.isWhitespace

/-- Characters of the arrow class `[<>→←↑↓⇒⇐⇑⇓]` (script.py line 124). -/
def isArrowChar (c : Char) : Bool :=
  c == '<' || c == '>' || c == '→' || c == '←' || c == '↑' || c == '↓' ||
  c == '⇒' || c == '⇐' || c == '⇑' || c == '⇓'

/-- Regex `^\s*[<>→←↑↓⇒⇐⇑⇓]\s*$`: exactly one arrow glyph amid whitespace. -/
def fullArrowMatch (cs : List Char) : Bool :=
  match cs.dropWhile Char.isWhitespace with
  | c :: rest => isArrowChar c && rest.all Char.isWhitespace
  | [] => false

/-- Regex word character `\w` (ASCII). -/
def isWordChar (c : Char) : Bool := c.isAlphanum || c == '_'

/-- Regex `^\d+[\.\)]\s+\w` (script.py line 1202): numbered-list lead. -/
def numberedLead (s : String) : Bool :=
  let cs := s.data
  let ds := cs.takeWhile Char.isDigit
  ds ≠ [] &&
    (match cs.drop ds.length with
     | p :: rest =>
       (p == '.' || p == ')') &&
         (let ws := rest.takeWhile Char.isWhitespace
          ws ≠ [] &&
            (match rest.drop ws.length with
             | c :: _ => isWordChar c
             | [] => false))
     | [] => false)

/-- Regex `\d{2}[:/]\d{2}[:/]\d{2,4}` matching at the head of the list. -/
def dateAtHead (cs : List Char) : Bool :=
  match cs with
  | a :: b :: s1 :: c :: d :: s2 :: e :: f :: _ =>
    a.isDigit && b.isDigit && (s1 == ':' || s1 == '/') &&
      c.isDigit && d.isDigit && (s2 == ':' || s2 == '/') && e.isDigit && f.isDigit
  | _ => false

/-- Regex `\d{2}[:/]\d{2}[:/]\d{2,4}` searched anywhere (script.py line 1137). -/
def hasDatePattern : List Char → Bool
  | [] => false
  | c :: cs => dateAtHead (c :: cs) || hasDatePattern cs

/-- Regex `^[\d\s\.,]+$` via `re.match` (script.py line 1137). -/
def digitsPunctOnly (cs : List Char) : Bool :=
  cs ≠ [] && cs.all (fun c => c.isDigit || c.isWhitespace || c == '.' || c == ',')

/-! Section: Navigation-noise vocabularies (verbatim from the source) -/

/-- Navigation-noise vocabulary of `click_and_extract_subprograms`
(script.py lines 93-105), duplicates included. -/
def navElements : List String :=
  ["home", "about", "contact", "menu", "skip to content",
   "services", "about us", "find", "resources", "guides",
   "participate", "search", "login", "register", "sign in",
   "education institutions", "find education", "copyright",
   "privacy", "terms", "sitemap", "faq", "help",
   "click", "toggle", "close", "open", "show", "hide",
   "programs offered", "next", "previous", "submit",
   "apply now", "learn more", "read more", "view all",
   "download", "upload", "back", "forward", "continue", "proceed",
   "cancel", "ok", "yes", "no", "submit", "reset", "clear",
   "navigate", "expand", "collapse", "menu", "dropdown"]

/-- Navigation-noise vocabulary of the per-category cleanup
(script.py lines 1089-1098). -/
def navElementsClean : List String :=
  ["home", "about", "contact", "menu", "skip to content",
   "services", "about us", "find", "resources", "guides",
   "participate", "search", "login", "register", "sign in",
   "education institutions", "find education", "copyright",
   "privacy", "terms", "sitemap", "faq", "help",
   "click", "toggle", "close", "open", "show", "hide",
   "programs offered", "next", "previous", "submit",
   "apply now", "learn more", "read more", "view all"]

/-- Navigation-noise vocabulary of the save-time cleanup
(script.py lines 1353-1359). -/
def navElementsSave : List String :=
  ["home", "about", "contact", "menu", "skip to content",
   "services", "about us", "find", "resources", "guides",
   "participate", "search", "login", "register", "sign in",
   "education institutions", "find education", "copyright",
   "privacy", "terms", "sitemap", "faq", "help"]

/-- Keyword list of the flat-programs filter (script.py lines 1275-1276). -/
def nonProgramKeywords : List String :=
  ["home", "about us", "contact", "menu", "collapse", "expand",
   "click", "toggle", "close", "open", "show", "hide", "programs offered"]

/-- Four-word nav list of the serialization filter (script.py line 1300). -/
def navSmall : List String := ["home", "about", "contact", "menu"]

/-! Section: The is-noise predicate (script.py lines 108-130) -/

/-- Embedding of `is_nav_element(text)` from `click_and_extract_subprograms`.
Rejects empty/short text, vocabulary matches (exact, or substring for entries
longer than 4 characters), bracket/number/arrow-only glyph strings and very
short wordless strings. -/
def is_nav_element (text : String) : Bool :=
  if text = "" ∨ pyLen (pyStrip text) < 3 then true
  else
    let textLower := pyStrip (pyLower text)
    if navElements.any (fun nav =>
        nav == textLower || (pyLen nav > 4 && pyIn nav textLower)) then true
    else if fullBracketMatch text.data then true
    else if fullNumberMatch text.data then true
    else if fullArrowMatch text.data then true
    else if pyLen text < 5 && !(hasTwoLetters text.data) then true
    else false

/-! Section: Per-category cleanup (script.py lines 1085-1164) -/

/-- Items of `sub_programs` that Python counts in `duplicate_count`
(script.py lines 1101-1105): truthy items with a truthy strip, stripped. -/
def strippedSubs (subs : List String) : List String :=
  (subs.filter (fun s => s ≠ "" ∧ pyStrip s ≠ "")).map pyStrip

/-- Whether `c` lands in `repeated_elements` (script.py lines 1107-1108):
its stripped form occurs at least three times in the raw sub-program list. -/
def isRepeated (subs : List String) (c : String) : Bool :=
  3 ≤ (strippedSubs subs).count c

/-- Vocabulary test of the cleanup loop (script.py lines 1123-1125): exact
lowercase match, or substring match for entries longer than 4 characters. -/
def navAnyClean (c : String) : Bool :=
  navElementsClean.any (fun nav =>
    pyLower nav == pyLower c || (pyLen nav > 4 && pyIn (pyLower nav) (pyLower c)))

/-- Vocabulary test of the over-100-characters retry (script.py line 1144):
plain substring match against every entry. -/
def navSubstrAnyClean (c : String) : Bool :=
  navElementsClean.any (fun nav => pyIn (pyLower nav) (pyLower c))

/-- The accumulator-independent filters of the cleanup loop (script.py lines
1111-1147): length, repeated-elements, vocabulary, main-title, URL, date and
digit-punctuation rejection, and the first-line retry for long items.
Returns the candidate that reaches the similarity check, if any. -/
def keepCandidate (all : List String) (t : String) (sub : String) : Option String :=
  if sub = "" ∨ pyLen (pyStrip sub) < 3 then none
  else
    let c := pyStrip sub
    if isRepeated all c then none
    else if navAnyClean c then none
    else if c = pyStrip t then none
    else if pyIn "http" (pyLower c) || pyIn "www." (pyLower c) then none
    else if hasDatePattern c.data || digitsPunctOnly c.data then none
    else if pyLen c > 100 then
      let fl := pyStrip (firstLine c)
      if fl ≠ "" ∧ pyLen fl < 100 ∧ navSubstrAnyClean fl = false then some fl
      else none
    else some c

/-- Similarity test of the cleanup loop (script.py lines 1151-1158): both
strings non-empty and one case-insensitively contains the other. -/
def similarTo (c e : String) : Bool :=
  (pyLen e != 0) && (pyLen c != 0) &&
    (pyIn (pyLower e) (pyLower c) || pyIn (pyLower c) (pyLower e))

/-- One iteration of the cleanup loop (script.py lines 1111-1162). -/
def processSub (all : List String) (t : String) (acc : List String)
    (sub : String) : List String :=
  match keepCandidate all t sub with
  | none => acc
  | some c =>
    if c ≠ "" ∧ acc.any (similarTo c) = false ∧ c ∉ acc then acc ++ [c] else acc

/-- Embedding of the `clean_subs` computation (script.py lines 1086-1164):
the cleaned item list stored as `program_structure[main_title]`. -/
def cleanSubs (t : String) (subs : List String) : List String :=
  subs.foldl (processSub subs t) []

/-! Section: Structural text-fallback parser (script.py lines 1184-1220) -/

/-- Whether `line` is classified as a main-program header by the text fallback
(script.py lines 1199-1212): numbered-list lead, trailing colon, short line
with upper-case cue, or every word capitalized. -/
def isMainProgramLine (line : String) : Bool :=
  numberedLead line ||
  pyEndsWith line ":" ||
  ((pySplitWs line).length < 5 &&
    ((line.data.any Char.isAlpha && line.data.all (fun c => !c.isLower)) ||
     (match line.data with | c :: _ => c.isUpper | [] => false))) ||
  (pySplitWs line).all (fun w =>
    match w.data with | c :: _ => c.isUpper | [] => false)

/-- Python-dict assignment `d[k] = v` on an insertion-ordered association
list: overwrite in place when the key exists, append otherwise. -/
def dictSet (d : List (String × List String)) (k : String) (v : List String) :
    List (String × List String) :=
  if d.any (fun p => p.1 == k) then
    d.map (fun p => if p.1 == k then (p.1, v) else p)
  else d ++ [(k, v)]

/-- Python `d[k].append(v)`.  In the source the key always exists when this is
reached (it is set together with `current_main_program`); the fallback branch
keeps the function total. -/
def dictAppend (d : List (String × List String)) (k : String) (v : String) :
    List (String × List String) :=
  if d.any (fun p => p.1 == k) then
    d.map (fun p => if p.1 == k then (p.1, p.2 ++ [v]) else p)
  else d ++ [(k, [v])]

/-- Line loop of the text fallback (script.py lines 1191-1220).  `cur` is
`current_main_program`, with `""` standing for Python's falsy `None`. -/
def parseLines : List String → String → List (String × List String) →
    List (String × List String)
  | [], _, d => d
  | l :: ls, cur, d =>
    if isMainProgramLine l then
      let t := rstripColons (pyStrip l)
      parseLines ls t (dictSet d t [])
    else if cur ≠ "" then parseLines ls cur (dictAppend d cur (pyStrip l))
    else parseLines ls cur d

/-- Embedding of the structural text-fallback parser (script.py lines
1184-1220): split the container text into trimmed non-empty lines, then
classify each line as header or item. -/
def parseTextStructure (contentText : String) : List (String × List String) :=
  parseLines (((pySplitOn '\n' contentText).map pyStrip).filter (fun l => l ≠ "")) "" []

/-! Section: Category-header discovery (script.py lines 950-986) -/

/-- Element loop for one selector family (script.py lines 966-977): keep the
trimmed text of each element whose text is longer than one character and whose
title was not collected before. -/
def addTitles (acc : List String) (texts : List String) : List String :=
  texts.foldl (fun a t =>
    if t ≠ "" ∧ pyLen (pyStrip t) > 1 ∧ pyStrip t ∉ a then a ++ [pyStrip t]
    else a) acc

/-- Selector-family loop of category-header discovery (script.py lines
961-986).  Each entry of `fams` is the list of element texts one selector
family matches; the loop breaks as soon as the accumulated title list holds
more than one title. -/
def discoverMainPrograms : List (List String) → List String → List String
  | [], acc => acc
  | f :: rest, acc =>
    if f = [] then discoverMainPrograms rest acc
    else
      let acc2 := addTitles acc f
      if acc2.length > 1 then acc2 else discoverMainPrograms rest acc2

/-! Section: Serialization of the programs field (script.py lines 1263-1313) -/

/-- Item filter of the serialization step (script.py lines 1298-1300):
non-empty, more than two characters after trim, and no four-word nav term as a
substring of the lowercased item. -/
def filterSubs (subs : List String) : List String :=
  subs.filter (fun sub =>
    sub ≠ "" ∧ pyLen (pyStrip sub) > 2 ∧
      navSmall.any (fun nav => pyIn nav (pyLower sub)) = false)

/-- One segment of the serialized field (script.py lines 1296-1308): a
category with surviving items renders as `Title (item1, item2, ...)`, else as
the bare title. -/
def formatSegment (main : String) (subs : List String) : String :=
  if subs ≠ [] then
    let f := filterSubs subs
    if f ≠ [] then main ++ " (" ++ String.intercalate ", " f ++ ")" else main
  else main

/-- Embedding of the `formatted_programs` join (script.py lines 1294-1311). -/
def formatPrograms (ps : List (String × List String)) : String :=
  String.intercalate "; " (ps.map (fun p => formatSegment p.1 p.2))

/-- Serialization rule as the specification states it: each category maps to
one segment, rendered `Title (item1, item2, ...)` when its filtered item list
is non-empty and as the bare title otherwise, segments joined with `; `. -/
def specSerializePrograms (ps : List (String × List String)) : String :=
  String.intercalate "; " (ps.map (fun p =>
    let items := filterSubs p.2
    if items = [] then p.1
    else p.1 ++ " (" ++ String.intercalate ", " items ++ ")"))

/-- Final value of `detailed_data['programs']` (script.py lines 1263-1313).
The tentative assignment from the flat list (lines 1284-1289) is
unconditionally overwritten by lines 1292-1313: when `program_structure` is
non-empty line 1311 assigns the formatted join, and otherwise line 1313
assigns `detailed_data.get('programs_offered', "N/A")`, whose key is never
present, hence `"N/A"`. -/
def buildProgramsField (ps : List (String × List String))
    (flat : List String) : String :=
  if ps ≠ [] then
    let formatted := ps.map (fun p => formatSegment p.1 p.2)
    if formatted ≠ [] then String.intercalate "; " formatted else "N/A"
  else "N/A"

/-! Section: Save-time cleanup of the programs field (script.py lines 1350-1375) -/

/-- Whether a segment contains any save-time nav term as a substring
(script.py line 1366). -/
def saveNavHit (p : String) : Bool :=
  navElementsSave.any (fun nav => pyIn (pyLower nav) (pyLower p))

/-- One iteration of the save-time cleanup loop (script.py lines 1363-1369). -/
def saveCleanStep (a : List String) (seg : String) : List String :=
  let p := pyStrip seg
  if saveNavHit p then a
  else if p ≠ "" ∧ p ∉ a then a ++ [p] else a

/-- Surviving segments of the save-time cleanup (script.py lines 1362-1369). -/
def saveCleanedList (programs : String) : List String :=
  (pySplitOn ';' programs).foldl saveCleanStep []

/-- Embedding of the saved `programs` value (script.py lines 1371-1375). -/
def saveCleanPrograms (programs : String) : String :=
  if saveCleanedList programs ≠ [] then
    String.intercalate "; " (saveCleanedList programs)
  else "N/A"

/-! Section: Per-header item harvest (script.py lines 84-379) -/

/-- Word-set similarity test of the harvest (script.py lines 277-280): the
lowercase whitespace-split words of one string form a subset of the other's. -/
def wordSubsetEither (t item : String) : Bool :=
  let mw := pySplitWs (pyLower t)
  let iw := pySplitWs (pyLower item)
  mw.all (fun w => iw.contains w) || iw.all (fun w => mw.contains w)

/-- Candidate processing of the harvest's container path (script.py lines
270-281): raw truthiness and main-title checks, first-line cleanup, length,
noise and word-subset filters. -/
def cleanCandidate1 (t : String) (acc : List String) (item : String) :
    List String :=
  if item ≠ "" ∧ item ≠ t ∧ item ∉ acc then
    let c := pyStrip (firstLine item)
    if c ≠ "" ∧ pyLen c > 2 ∧ is_nav_element c = false ∧
        wordSubsetEither t c = false then acc ++ [c]
    else acc
  else acc

/-- Candidate processing of the harvest's list-item/paragraph and sibling
paths (script.py lines 300-321 and 366-374): as `cleanCandidate1` but without
the raw truthiness check. -/
def cleanCandidate2 (t : String) (acc : List String) (item : String) :
    List String :=
  if item ≠ t ∧ item ∉ acc then
    let c := pyStrip (firstLine item)
    if c ≠ "" ∧ pyLen c > 2 ∧ is_nav_element c = false ∧
        wordSubsetEither t c = false then acc ++ [c]
    else acc
  else acc

/-- Abstract document state and operations used by
`click_and_extract_subprograms`.  The script-evaluated queries are functions
of the current document state `σ`; the header click and the force-show script
(script.py lines 144 and 174-182) are state transitions. -/
structure HOps (σ : Type) where
  click : σ → σ
  targetId : Option String
  hasTarget : σ → String → Bool
  forceShow : σ → String → σ
  targetItems : σ → String → List String
  containers : σ → List (Bool × List String)
  visibleElems : σ → List (String × Bool × Bool)
  siblingItems : σ → List String

/-- Target-id phase of the harvest (script.py lines 154-204): resolve the
explicit target container, force it visible, and collect its raw visible
texts with exact dedup and no further filtering. -/
def harvestTarget {σ : Type} (ops : HOps σ) (s1 : σ) : σ × List String :=
  match ops.targetId with
  | some id =>
    if ops.hasTarget s1 id then
      let s2 := ops.forceShow s1 id
      (s2, (ops.targetItems s2 id).foldl
        (fun a it => if it ≠ "" ∧ it ∉ a then a ++ [it] else a) [])
    else (s1, [])
  | none => (s1, [])

/-- After-click scan of the harvest (script.py lines 206-321): prefer the
first list-typed container, else the first container, else fall back to all
visible list items, then paragraphs. -/
def harvestPhase2 {σ : Type} (ops : HOps σ) (s2 : σ) (t : String) :
    List String :=
  let cs := ops.containers s2
  if cs ≠ [] then
    let listsC := cs.filter (fun c => c.1)
    let c := if listsC ≠ [] then listsC.headD (true, []) else cs.headD (true, [])
    c.2.foldl (cleanCandidate1 t) []
  else
    let elems := ops.visibleElems s2
    let lis := (elems.filter (fun e => e.2.1)).map (fun e => e.1)
    let paras := (elems.filter (fun e => e.2.2)).map (fun e => e.1)
    if lis ≠ [] then lis.foldl (cleanCandidate2 t) []
    else if paras ≠ [] then paras.foldl (cleanCandidate2 t) []
    else []

/-- Embedding of `click_and_extract_subprograms` (script.py lines 84-379):
click the header, try the target-id phase, the after-click scan, then the
sibling scan; returns the final document state with the item list. -/
def harvest {σ : Type} (ops : HOps σ) (s : σ) (t : String) :
    σ × List String :=
  let s1 := ops.click s
  let p := harvestTarget ops s1
  let subs2 := if p.2 = [] then harvestPhase2 ops p.1 t else p.2
  let subs3 :=
    if subs2 = [] then (ops.siblingItems p.1).foldl (cleanCandidate2 t) []
    else subs2
  (p.1, subs3)

/-! Section: Disclosure locator (script.py lines 381-553) -/

/-- Containers `click_and_expand_accordion` can return: the target-id content
element (script.py line 476), a content-class selector hit (line 531), or a
last-resort program/course probe hit (line 549). -/
inductive Container : Type
  | byId : Container
  | bySelector : Nat → Container
  | lastResort : Nat → Container
deriving DecidableEq, Repr

/-- Abstract document view for `click_and_expand_accordion`.  Every
DOM-facing operation may raise (`Except.error` with an error code), mirroring
the Playwright calls the Python code performs; indices select among the
selector lists of the source. -/
structure AccordionView where
  waitNetworkIdle : Except Nat Unit
  findTrigger : Nat → Except Nat (Option Unit)
  ariaExpanded : Except Nat (Option String)
  clickStd : Except Nat Unit
  clickJs : Except Nat Unit
  waitSettle : Except Nat Unit
  attrHref : Except Nat (Option String)
  attrDataBsTarget : Except Nat (Option String)
  waitContent : Except Nat (Option Unit)
  contentVisible : Except Nat Bool
  forceVisible : Except Nat Unit
  waitAfterForce : Except Nat Unit
  jsFindContent : Except Nat Bool
  waitContentSel : Nat → Except Nat (Option Unit)
  queryLastResort : Nat → Except Nat (Option Unit)

/-- First index whose probe yields an attached element; probes that raise or
return nothing are skipped (script.py lines 412-421, try/except continue). -/
def firstSome (f : Nat → Except Nat (Option Unit)) : List Nat → Option Nat
  | [] => none
  | i :: rest =>
    match f i with
    | .ok (some _) => some i
    | _ => firstSome f rest

/-- Last-resort probe loop (script.py lines 538-551): a single try wraps the
whole loop, so the first raising query aborts it; otherwise the first hit is
returned. -/
def lastResortLoop (v : AccordionView) : List Nat → Option Container
  | [] => none
  | i :: rest =>
    match v.queryLastResort i with
    | .error _ => none
    | .ok (some _) => some (Container.lastResort i)
    | .ok none => lastResortLoop v rest

/-- Body of the big try block (script.py lines 427-533).  An `Except.error`
result models an exception reaching the handler at line 535; `Except.ok`
carries the returned container, or `none` when control falls off the end of
the block. -/
def bigTry (v : AccordionView) : Except Nat (Option Container) := do
  let aria ← v.ariaExpanded
  if aria ≠ some "true" then
    let _ ← (match v.clickStd with
             | .ok _ => Except.ok ()
             | .error _ => v.clickJs)
    let _ ← v.waitSettle
  let href ← v.attrHref
  let target ← (match href with
                | some h => if h ≠ "" then Except.ok (some h) else v.attrDataBsTarget
                | none => v.attrDataBsTarget)
  let byId : Option Container :=
    match target with
    | some t =>
      if pyStartsWith t "#" then
        match v.waitContent with
        | .error _ => none
        | .ok none => none
        | .ok (some _) =>
          match v.contentVisible with
          | .error _ => none
          | .ok true => some Container.byId
          | .ok false =>
            match v.forceVisible with
            | .error _ => none
            | .ok _ =>
              match v.waitAfterForce with
              | .error _ => none
              | .ok _ => some Container.byId
      else none
    | none => none
  match byId with
  | some c => pure (some c)
  | none =>
    let found ← v.jsFindContent
    if found then
      pure ((firstSome v.waitContentSel (List.range 6)).map Container.bySelector)
    else
      pure none

/-- Continuation of the locator after the initial networkidle wait
(script.py lines 389-553): probe the sixteen trigger selectors, run the big
try block, and fall back to the last-resort probes when it raised or found
nothing. -/
def afterWait (v : AccordionView) : Except Nat (Option Container) :=
  match firstSome v.findTrigger (List.range 16) with
  | none => Except.ok none
  | some _ =>
    match bigTry v with
    | .ok (some c) => Except.ok (some c)
    | _ => Except.ok (lastResortLoop v (List.range 4))

/-- Embedding of `click_and_expand_accordion` (script.py lines 381-553).  The
initial `wait_for_load_state("networkidle")` at line 387 sits outside every
try block, so its exception propagates to the caller. -/
def clickAndExpandAccordion (v : AccordionView) : Except Nat (Option Container) :=
  match v.waitNetworkIdle with
  | .error e => Except.error e
  | .ok _ => afterWait v

/-- Whether an `Except` computation completed without raising. -/
def isOkE {ε α : Type} : Except ε α → Bool
  | .ok _ => true
  | .error _ => false

/-- Concrete view whose every operation succeeds trivially except the initial
networkidle wait, which raises error code 7. -/
def errView : AccordionView where
  waitNetworkIdle := Except.error 7
  findTrigger := fun _ => Except.ok none
  ariaExpanded := Except.ok none
  clickStd := Except.ok ()
  clickJs := Except.ok ()
  waitSettle := Except.ok ()
  attrHref := Except.ok none
  attrDataBsTarget := Except.ok none
  waitContent := Except.ok none
  contentVisible := Except.ok true
  forceVisible := Except.ok ()
  waitAfterForce := Except.ok ()
  jsFindContent := Except.ok false
  waitContentSel := fun _ => Except.ok none
  queryLastResort := fun _ => Except.ok none

/-- The same view with the initial wait succeeding. -/
def okView : AccordionView :=
  { errView with waitNetworkIdle := Except.ok () }

/-! Section: Derived predicates and concrete instances used by the theorems -/

/-- Neither string case-insensitively contains the other. -/
def noContainPair (a b : String) : Bool :=
  !(pyIn (pyLower a) (pyLower b)) && !(pyIn (pyLower b) (pyLower a))

/-- Pairwise substring-containment freedom: no two items of the list, in
either order, where one case-insensitively contains the other. -/
def pairwiseNoContainB : List String → Bool
  | [] => true
  | x :: xs => xs.all (fun y => noContainPair x y) && pairwiseNoContainB xs

/-- Document with a single expanded/collapsed flag whose header click
toggles it: when expanded, the after-click scan sees one list container;
when collapsed, only the sibling scan finds text. -/
def toggleOps : HOps Bool where
  click := fun b => !b
  targetId := none
  hasTarget := fun _ _ => false
  forceShow := fun s _ => s
  targetItems := fun _ _ => []
  containers := fun s => if s then [(true, ["Diploma in Accounting"])] else []
  visibleElems := fun _ => []
  siblingItems := fun s => if s then [] else ["Diploma in Marketing"]

/-- Degenerate document on which clicking and force-showing are no-ops. -/
def idOps : HOps Unit where
  click := fun s => s
  targetId := none
  hasTarget := fun _ _ => false
  forceShow := fun s _ => s
  targetItems := fun _ _ => []
  containers := fun _ => [(true, ["Diploma in Accounting"])]
  visibleElems := fun _ => []
  siblingItems := fun _ => []

theorem str_data_ne_nil {s : String} (h : s ≠ "") : s.data ≠ [] := by
  intro hd
  apply h
  cases s with
  | mk d =>
    simp only at hd
    subst hd
    rfl

theorem pyLen_bne_zero {s : String} (h : s ≠ "") : (pyLen s != 0) = true := by
  have hd := str_data_ne_nil h
  rw [bne_iff_ne]
  simp only [pyLen, ne_eq, List.length_eq_zero]
  exact hd

theorem noContainPair_of_not_similar {c e : String} (hc : c ≠ "") (he : e ≠ "")
    (h : similarTo c e = false) : noContainPair e c = true ∧ noContainPair c e = true := by
  have h1 := pyLen_bne_zero hc
  have h2 := pyLen_bne_zero he
  simp only [similarTo, h1, h2, Bool.true_and] at h
  rw [Bool.or_eq_false_iff] at h
  simp [noContainPair, h.1, h.2]

theorem pairwiseNoContainB_append (l : List String) (c : String)
    (h1 : pairwiseNoContainB l = true)
    (h2 : ∀ e ∈ l, noContainPair e c = true ∧ noContainPair c e = true) :
    pairwiseNoContainB (l ++ [c]) = true := by
  induction l with
  | nil => simp [pairwiseNoContainB]
  | cons x xs ih =>
    simp only [pairwiseNoContainB, Bool.and_eq_true, List.all_eq_true] at h1
    simp only [List.cons_append, pairwiseNoContainB, Bool.and_eq_true, List.all_eq_true]
    refine ⟨?_, ih h1.2 (fun e he => h2 e (List.mem_cons_of_mem x he))⟩
    intro y hy
    rcases List.mem_append.1 hy with hy | hy
    · exact h1.1 y hy
    · have hyc := List.mem_singleton.1 hy
      subst hyc
      exact (h2 x (List.mem_cons_self x xs)).1

theorem processSub_inv (all : List String) (t : String) (acc : List String)
    (sub : String) (h1 : pairwiseNoContainB acc = true) (h2 : ∀ e ∈ acc, e ≠ "") :
    pairwiseNoContainB (processSub all t acc sub) = true ∧
      ∀ e ∈ processSub all t acc sub, e ≠ "" := by
  unfold processSub
  cases hk : keepCandidate all t sub with
  | none => exact ⟨h1, h2⟩
  | some c =>
    dsimp only
    by_cases hc : c ≠ "" ∧ acc.any (similarTo c) = false ∧ c ∉ acc
    · rw [if_pos hc]
      obtain ⟨hc1, hc2, hc3⟩ := hc
      have hsim : ∀ e ∈ acc, similarTo c e = false := by
        intro e he
        by_contra hne
        have : acc.any (similarTo c) = true := by
          rw [List.any_eq_true]
          exact ⟨e, he, by revert hne; cases similarTo c e <;> simp⟩
        rw [this] at hc2
        exact absurd hc2 (by simp)
      constructor
      · exact pairwiseNoContainB_append acc c h1
          (fun e he => noContainPair_of_not_similar hc1 (h2 e he) (hsim e he))
      · intro e he
        rcases List.mem_append.1 he with he | he
        · exact h2 e he
        · rcases List.mem_singleton.1 he with rfl
          exact hc1
    · rw [if_neg hc]
      exact ⟨h1, h2⟩

theorem foldl_processSub_inv (all : List String) (t : String) :
    ∀ (l acc : List String), pairwiseNoContainB acc = true →
      (∀ e ∈ acc, e ≠ "") →
      pairwiseNoContainB (l.foldl (processSub all t) acc) = true ∧
        ∀ e ∈ l.foldl (processSub all t) acc, e ≠ ""
  | [], acc, ha, hb => ⟨ha, hb⟩
  | x :: xs, acc, ha, hb => by
    rw [List.foldl_cons]
    have h := processSub_inv all t acc x ha hb
    exact foldl_processSub_inv all t xs _ h.1 h.2

theorem nodup_append_single {l : List String} {x : String} (h : l.Nodup)
    (hx : x ∉ l) : (l ++ [x]).Nodup := by
  simp [List.nodup_append, h, hx]

theorem addTitles_nodup : ∀ (texts acc : List String), acc.Nodup →
    (addTitles acc texts).Nodup
  | [], _, h => h
  | t :: ts, acc, h => by
    unfold addTitles
    rw [List.foldl_cons]
    have hstep : (if t ≠ "" ∧ pyLen (pyStrip t) > 1 ∧ pyStrip t ∉ acc then
        acc ++ [pyStrip t] else acc).Nodup := by
      split
      case isTrue hcond => exact nodup_append_single h hcond.2.2
      case isFalse => exact h
    have hr := addTitles_nodup ts _ hstep
    unfold addTitles at hr
    exact hr

theorem discover_nodup : ∀ (fams : List (List String)) (acc : List String),
    acc.Nodup → (discoverMainPrograms fams acc).Nodup
  | [], _, h => h
  | f :: rest, acc, h => by
    unfold discoverMainPrograms
    split
    · exact discover_nodup rest acc h
    · dsimp only
      split
      · exact addTitles_nodup f acc h
      · exact discover_nodup rest _ (addTitles_nodup f acc h)

theorem saveCleanStep_inv (acc : List String) (seg : String)
    (h1 : ∀ x ∈ acc, saveNavHit x = false) (h2 : acc.Nodup) :
    (∀ x ∈ saveCleanStep acc seg, saveNavHit x = false) ∧
      (saveCleanStep acc seg).Nodup := by
  unfold saveCleanStep
  dsimp only
  split
  · exact ⟨h1, h2⟩
  case isFalse hnav =>
    split
    case isTrue hcond =>
      constructor
      · intro x hx
        rcases List.mem_append.1 hx with hx | hx
        · exact h1 x hx
        · rcases List.mem_singleton.1 hx with rfl
          exact Bool.of_not_eq_true hnav
      · exact nodup_append_single h2 hcond.2
    case isFalse => exact ⟨h1, h2⟩

theorem foldl_saveClean_inv : ∀ (l acc : List String),
    (∀ x ∈ acc, saveNavHit x = false) → acc.Nodup →
    (∀ x ∈ l.foldl saveCleanStep acc, saveNavHit x = false) ∧
      (l.foldl saveCleanStep acc).Nodup
  | [], _, h1, h2 => ⟨h1, h2⟩
  | seg :: rest, acc, h1, h2 => by
    rw [List.foldl_cons]
    have h := saveCleanStep_inv acc seg h1 h2
    exact foldl_saveClean_inv rest _ h.1 h.2

theorem formatSegment_spec (m : String) (s : List String) :
    formatSegment m s =
      (if filterSubs s = [] then m
       else m ++ " (" ++ String.intercalate ", " (filterSubs s) ++ ")") := by
  unfold formatSegment
  by_cases hs : s = []
  · subst hs
    simp [filterSubs]
  · rw [if_pos hs]
    by_cases hf : filterSubs s = []
    · rw [if_pos hf]
      simp [hf]
    · rw [if_neg hf]
      simp [hf]

theorem harvest_fst {σ : Type} (ops : HOps σ) (s : σ) (t : String)
    (hclick : ops.click s = s) (hforce : ∀ id, ops.forceShow s id = s) :
    (harvest ops s t).1 = s := by
  unfold harvest
  dsimp only
  rw [hclick]
  unfold harvestTarget
  cases ops.targetId with
  | none => rfl
  | some id =>
    dsimp only
    split
    · rw [hforce id]
    · rfl

theorem afterWait_ok (v : AccordionView) : isOkE (afterWait v) = true := by
  unfold afterWait
  split
  · rfl
  · split <;> rfl

/-- C1: for category items `["Project Management", "Project Management
Professional"]` fed in that order, the per-category dedup does NOT keep the
longer string: the survivor is the first-fed, shorter one. -/
theorem c1_counterexample :
    cleanSubs "Business" ["Project Management", "Project Management Professional"] ≠
      ["Project Management Professional"] ∧
    cleanSubs "Business" ["Project Management", "Project Management Professional"] =
      ["Project Management"] := by decide

/-- C1 (amended): for that pair exactly one item survives, and it is the
first-fed string `"Project Management"`: the dedup keeps the earlier-accepted
item and drops a later item when either case-insensitively contains the
other. -/
theorem c1_dedup_keeps_first :
    (cleanSubs "Business" ["Project Management", "Project Management Professional"]).length = 1 ∧
    cleanSubs "Business" ["Project Management", "Project Management Professional"] =
      ["Project Management"] := by decide

/-- C2: the structural text-fallback parser violates the dedup invariant: a
container text with a repeated item line yields a category whose item list
holds two identical (hence mutually containing) items. -/
theorem c2_counterexample :
    parseTextStructure
        "Business:\nintroduction to business management basics\nintroduction to business management basics" =
      [("Business", ["introduction to business management basics",
                     "introduction to business management basics"])] ∧
    pairwiseNoContainB ["introduction to business management basics",
                        "introduction to business management basics"] = false := by decide

/-- C2 (amended): on the main harvest path the per-category cleanup does
guarantee the invariant: the produced item list has no two items where one
case-insensitively contains the other, and every item is non-empty. -/
theorem c2_main_path_invariant (t : String) (subs : List String) :
    pairwiseNoContainB (cleanSubs t subs) = true ∧
      ∀ e ∈ cleanSubs t subs, e ≠ "" :=
  foldl_processSub_inv subs t subs [] rfl (by simp)

/-- C2 witness: the invariant evaluated on a concrete category. -/
theorem c2_witness :
    pairwiseNoContainB (cleanSubs "Business" ["Diploma in Accounting"]) = true ∧
      "Diploma in Accounting" ≠ "" :=
  ⟨(c2_main_path_invariant "Business" ["Diploma in Accounting"]).1,
   (c2_main_path_invariant "Business" ["Diploma in Accounting"]).2
     "Diploma in Accounting" (by decide)⟩

/-- C3: the is-noise predicate holds on `""`, `"ab"` and `"Home"`, and fails
on `"Diploma in Business Management"`. -/
theorem c3_noise_predicate_values :
    is_nav_element "" = true ∧ is_nav_element "ab" = true ∧
    is_nav_element "Home" = true ∧
    is_nav_element "Diploma in Business Management" = false := by decide

/-- C4: the locator CAN raise to its caller: a document view whose initial
networkidle wait raises makes `click_and_expand_accordion` propagate that
exception, since the wait at script.py line 387 sits outside every try. -/
theorem c4_counterexample :
    clickAndExpandAccordion errView = Except.error 7 ∧
      isOkE (clickAndExpandAccordion errView) = false := ⟨rfl, rfl⟩

/-- C4 (amended): provided the initial networkidle wait succeeds, the locator
never raises, whatever any later DOM-interaction call does: every other
operation's exception is swallowed by a handler. -/
theorem c4_no_raise_after_wait (v : AccordionView)
    (h : v.waitNetworkIdle = Except.ok ()) :
    isOkE (clickAndExpandAccordion v) = true := by
  unfold clickAndExpandAccordion
  rw [h]
  exact afterWait_ok v

/-- C4 witness: the amended theorem on a concrete view. -/
theorem c4_witness : isOkE (clickAndExpandAccordion okView) = true :=
  c4_no_raise_after_wait okView rfl

/-- C5: discovery does not continue past a family that yields a single new
candidate: two one-candidate families already stop the scan, so a third
family is never read. -/
theorem c5_counterexample :
    discoverMainPrograms [["Alpha"], ["Beta"], ["Gamma"]] [] = ["Alpha", "Beta"] ∧
      "Gamma" ∉ discoverMainPrograms [["Alpha"], ["Beta"], ["Gamma"]] [] := by decide

/-- C5 (amended): discovery keeps only the first occurrence of each distinct
trimmed title (the accumulated list is duplicate-free), and it stops scanning
further families exactly when the titles accumulated across all families so
far exceed one; a non-empty family leaving at most one accumulated title lets
the scan continue. -/
theorem c5_discovery_props :
    (∀ (fams : List (List String)) (acc : List String), acc.Nodup →
      (discoverMainPrograms fams acc).Nodup) ∧
    (∀ (f : List String) (rest : List (List String)) (acc : List String),
      f ≠ [] → (addTitles acc f).length ≤ 1 →
      discoverMainPrograms (f :: rest) acc =
        discoverMainPrograms rest (addTitles acc f)) ∧
    (∀ (f : List String) (rest : List (List String)) (acc : List String),
      f ≠ [] → (addTitles acc f).length > 1 →
      discoverMainPrograms (f :: rest) acc = addTitles acc f) := by
  refine ⟨fun fams acc h => discover_nodup fams acc h, ?_, ?_⟩
  · intro f rest acc hf hle
    conv_lhs => unfold discoverMainPrograms
    rw [if_neg hf]
    dsimp only
    rw [if_neg (by omega)]
  · intro f rest acc hf hgt
    conv_lhs => unfold discoverMainPrograms
    rw [if_neg hf]
    dsimp only
    rw [if_pos hgt]

/-- C5 witness: the three parts on concrete selector families. -/
theorem c5_witness :
    (discoverMainPrograms [["Alpha"], ["Beta"]] []).Nodup ∧
    discoverMainPrograms [["Solo"], ["Duo"]] [] =
      discoverMainPrograms [["Duo"]] (addTitles [] ["Solo"]) ∧
    discoverMainPrograms [["One", "Two"], ["Three"]] [] =
      addTitles [] ["One", "Two"] :=
  ⟨c5_discovery_props.1 [["Alpha"], ["Beta"]] [] List.nodup_nil,
   c5_discovery_props.2.1 ["Solo"] [["Duo"]] [] (by decide) (by decide),
   c5_discovery_props.2.2 ["One", "Two"] [["Three"]] [] (by decide) (by decide)⟩

/-- C6: the serialized programs field joins one segment per category with
`; `, rendering a category with surviving filtered items as
`Title (item1, item2, ...)` and one with none as the bare title; checked both
in general against the spec-stated rule and on the spec's own example. -/
theorem c6_serialization :
    (∀ ps : List (String × List String),
      formatPrograms ps = specSerializePrograms ps) ∧
    formatPrograms [("Business", ["Item1", "Item2"]),
        ("Technology", ["Item3", "Item4"])] =
      "Business (Item1, Item2); Technology (Item3, Item4)" := by
  constructor
  · intro ps
    unfold formatPrograms specSerializePrograms
    have hfg : (fun p : String × List String => formatSegment p.1 p.2) =
        (fun p : String × List String =>
          let items := filterSubs p.2
          if items = [] then p.1
          else p.1 ++ " (" ++ String.intercalate ", " items ++ ")") := by
      funext p
      exact formatSegment_spec p.1 p.2
    rw [hfg]
  · decide

/-- C7: when the locator finds no accordion, both the structured mapping and
the flat list stay empty, and the programs field of the produced record is
exactly `"N/A"`. -/
theorem c7_locator_notfound_na : buildProgramsField [] [] = "N/A" := rfl

/-- C8: running the harvest twice is NOT idempotent when its own click
toggles the document: on a toggling already-expanded document the two runs
return different item lists. -/
theorem c8_counterexample :
    (harvest toggleOps (harvest toggleOps true "Programs").1 "Programs").2 ≠
      (harvest toggleOps true "Programs").2 := by decide

/-- C8 (amended): when the harvest's own document mutations (the header click
and the force-show script) leave the document state unchanged — a genuinely
already-expanded, unchanged container — two successive runs return identical
results. -/
theorem c8_idempotent_when_stable {σ : Type} (ops : HOps σ) (s : σ)
    (t : String) (hclick : ops.click s = s)
    (hforce : ∀ id, ops.forceShow s id = s) :
    harvest ops (harvest ops s t).1 t = harvest ops s t := by
  rw [harvest_fst ops s t hclick hforce]

/-- C8 witness: idempotence on a concrete click-stable document. -/
theorem c8_witness :
    harvest idOps (harvest idOps () "Programs").1 "Programs" =
      harvest idOps () "Programs" :=
  c8_idempotent_when_stable idOps () "Programs" rfl (fun _ => rfl)

/-- C9: the harvest's candidate filters drop an item whenever its lowercase
word set is a subset or a superset of the category title's word set; in
particular an item whose words strictly extend the title's words is
dropped. -/
theorem c9_word_subset_filter :
    (∀ (t : String) (acc : List String) (item : String),
      wordSubsetEither t (pyStrip (firstLine item)) = true →
        cleanCandidate1 t acc item = acc ∧ cleanCandidate2 t acc item = acc) ∧
    cleanCandidate1 "Business" [] "Business Management" = [] := by
  constructor
  · intro t acc item h
    constructor
    · unfold cleanCandidate1
      split
      · dsimp only
        rw [if_neg (by
          rintro ⟨-, -, -, h4⟩
          rw [h] at h4
          exact Bool.noConfusion h4)]
      · rfl
    · unfold cleanCandidate2
      split
      · dsimp only
        rw [if_neg (by
          rintro ⟨-, -, -, h4⟩
          rw [h] at h4
          exact Bool.noConfusion h4)]
      · rfl
  · decide

/-- C9 witness: the filter on a concrete title and item. -/
theorem c9_witness :
    cleanCandidate1 "Business" ["Other"] "Business Management" = ["Other"] ∧
      cleanCandidate2 "Business" ["Other"] "Business Management" = ["Other"] :=
  c9_word_subset_filter.1 "Business" ["Other"] "Business Management" (by decide)

/-- C10: every surviving segment of the save-time cleanup is free of the
save-time nav terms (so every nav-containing segment is removed), the
surviving segments carry no exact duplicates, and when nothing survives the
saved programs value is `"N/A"`. -/
theorem c10_save_cleanup :
    (∀ (programs x : String), x ∈ saveCleanedList programs →
      saveNavHit x = false) ∧
    (∀ programs : String, (saveCleanedList programs).Nodup) ∧
    (∀ programs : String, saveCleanedList programs = [] →
      saveCleanPrograms programs = "N/A") := by
  refine ⟨?_, ?_, ?_⟩
  · intro programs x hx
    have h := foldl_saveClean_inv (pySplitOn ';' programs) [] (by simp)
      List.nodup_nil
    exact h.1 x hx
  · intro programs
    exact (foldl_saveClean_inv (pySplitOn ';' programs) [] (by simp)
      List.nodup_nil).2
  · intro programs h
    unfold saveCleanPrograms
    rw [if_neg (fun hc => hc h)]

/-- C10 witness: a fully nav-polluted field degrades to `"N/A"`. -/
theorem c10_witness : saveCleanPrograms "Home" = "N/A" :=
  c10_save_cleanup.2.2 "Home" (by decide)
